import Mathlib

/-!
Verification of the universal-checker rule engine, compliance aggregator,
content-acquisition pipeline, SEO scorer and language detector, shallowly
embedded from the TypeScript sources.
-/

namespace UniversalChecker

/-! ### Basic string helpers (JavaScript string-operation semantics) -/

/-- ASCII lowercase of a character, as JavaScript `toLowerCase` acts on ASCII letters. -/
def charLower (c : Char) : Char :=
  if 'A' ≤ c ∧ c ≤ 'Z' then Char.ofNat (c.toNat + 32) else c

/-- ASCII lowercase of a string (JavaScript `toLowerCase` on the ASCII range). -/
def strLower (s : String) : String :=
  String.mk (s.data.map charLower)

/-- `needleLeads needle hay` is true when `needle` occurs at the very front of `hay`. -/
def needleLeads : List Char → List Char → Bool
  | [], _ => true
  | _ :: _, [] => false
  | a :: as, b :: bs => a == b && needleLeads as bs

/-- Substring occurrence test on character lists (JavaScript `String.includes`). -/
def hasSub (hay needle : List Char) : Bool :=
  match hay with
  | [] => needle.isEmpty
  | c :: t => needleLeads needle (c :: t) || hasSub t needle

/-- JavaScript `s.includes(sub)`. -/
def strContains (s sub : String) : Bool :=
  hasSub s.data sub.data

/-- JavaScript `s.startsWith(p)`. -/
def strStartsWith (s p : String) : Bool :=
  needleLeads p.data s.data

/-- JavaScript whitespace class `\s` (the characters relevant to this codebase). -/
def jsWsChar (c : Char) : Bool :=
  c == ' ' || c == '\t' || c == '\n' || c == '\r' ||
  c.toNat == 11 || c.toNat == 12 || c.toNat == 0xa0 || c.toNat == 0xfeff

/-- JavaScript `String.prototype.trim`. -/
def jsTrim (s : String) : String :=
  String.mk (((s.data.dropWhile jsWsChar).reverse.dropWhile jsWsChar).reverse)

/-- JavaScript `s.slice(a, b)` on a character list with already-clamped bounds. -/
def listSlice (l : List Char) (a b : Nat) : List Char :=
  (l.drop a).take (b - a)

/-- ASCII digit test (JavaScript `\d`). -/
def isDigitCh (c : Char) : Bool :=
  '0' ≤ c && c ≤ '9'

/-- ASCII Latin-letter test (JavaScript `[a-zA-Z]`). -/
def isLatinCh (c : Char) : Bool :=
  ('a' ≤ c && c ≤ 'z') || ('A' ≤ c && c ≤ 'Z')

/-- Arabic-script character test (JavaScript `[؀-ۿ]`). -/
def isArabicCh (c : Char) : Bool :=
  0x600 ≤ c.toNat && c.toNat ≤ 0x6FF

/-- JavaScript word-character class `\w` = `[A-Za-z0-9_]`, used by `\b` boundaries. -/
def isWordCh (c : Char) : Bool :=
  isLatinCh c || isDigitCh c || c == '_'

/-! ### Data model

`Issue` mirrors the `Issue` interface of `rules-engine.service.ts`: optional
properties become `Option`s. -/

structure Issue where
  rule_id : String
  type : String
  category : String
  severity : String
  message : String
  original : String
  suggestion : Option String := none
  position : Option Nat := none
  length : Option Nat := none
  context : Option String := none
  found : Option String := none
  link_text : Option String := none
deriving DecidableEq

/-- `Rule` mirrors the `Rule` interface of `rules-engine.service.ts`. -/
structure Rule where
  id : String
  category : String
  severity : String
  pattern : String
  replacement : Option String := none
  message : String := ""
  suggestion : Option String := none
  context_exceptions : Option (List String) := none
  applies_to : Option (List String) := none
deriving DecidableEq

/-! ### Compliance aggregator (`url-checker.service.ts`) -/

/-- The nine issue buckets of a `CheckResult`, as built by `categorizeIssues`. -/
structure CategorizedIssues where
  grammar : List Issue
  brand : List Issue
  numerical : List Issue
  links : List Issue
  images : List Issue
  cta : List Issue
  tone : List Issue
  legal : List Issue
  accessibility : List Issue
deriving DecidableEq

/-- `Object.values(issues).flat()` over the nine buckets, in field order. -/
def flattenCategorized (c : CategorizedIssues) : List Issue :=
  c.grammar ++ c.brand ++ c.numerical ++ c.links ++ c.images ++
    c.cta ++ c.tone ++ c.legal ++ c.accessibility

structure Metrics where
  totalIssues : Nat
  criticalIssues : Nat
  highIssues : Nat
  mediumIssues : Nat
  lowIssues : Nat
  complianceScore : Int
deriving DecidableEq

/-- `CheckerService.calculateMetrics` from `url-checker.service.ts` (lines 281-305):
flattens the categorized buckets, counts severities, and scores
`Math.max(0, 100 - (crit*20 + high*10 + med*5 + low*2))`. -/
def calculateMetrics (issues : CategorizedIssues) : Metrics :=
  let allIssues := flattenCategorized issues
  let criticalCount := (allIssues.filter (fun i => i.severity == "critical")).length
  let highCount := (allIssues.filter (fun i => i.severity == "high")).length
  let mediumCount := (allIssues.filter (fun i => i.severity == "medium")).length
  let lowCount := (allIssues.filter (fun i => i.severity == "low")).length
  let score : Int :=
    max 0 (100 - ((criticalCount : Int) * 20 + (highCount : Int) * 10 +
      (mediumCount : Int) * 5 + (lowCount : Int) * 2))
  { totalIssues := allIssues.length
    criticalIssues := criticalCount
    highIssues := highCount
    mediumIssues := mediumCount
    lowIssues := lowCount
    complianceScore := score }

/-- Spec-side severity count over a flat issue list. -/
def countSeverity (sev : String) (issues : List Issue) : Nat :=
  (issues.filter (fun i => i.severity == sev)).length

/-- `CheckerService.categorizeIssues` from `url-checker.service.ts` (lines 264-276):
nine independent filters over the combined issue list. -/
def categorizeIssues (issues : List Issue) : CategorizedIssues :=
  { grammar := issues.filter (fun i => i.type == "grammar" || i.category == "grammar")
    brand := issues.filter (fun i => i.category == "brand_compliance" || i.category == "brand_voice")
    numerical := issues.filter (fun i => i.category == "numerical_format")
    links := issues.filter (fun i => i.type == "link_validation" || i.category == "broken_links")
    images := issues.filter (fun i => i.type == "image_validation")
    cta := issues.filter (fun i => i.category == "cta")
    tone := issues.filter (fun i => i.category == "tone")
    legal := issues.filter (fun i => i.category == "legal_compliance")
    accessibility := issues.filter (fun i => strContains i.category "accessibility") }

/-- The EDM-specific rule-id leading strings excluded in URL mode
(`filterUrlApplicableIssues`). -/
def excludedRuleIds : List String :=
  ["variable_format", "font_family", "color_validation", "staging_url", "template_", "edm_"]

/-- The categories whose low/medium issues are dropped in URL mode. -/
def excludedCategoriesForUrls : List String :=
  ["cta", "tone"]

/-- `CheckerService.filterUrlApplicableIssues` from `url-checker.service.ts`
(lines 148-177). -/
def filterUrlApplicableIssues (issues : List Issue) : List Issue :=
  issues.filter fun issue =>
    let isExcluded := excludedRuleIds.any (fun pat => strStartsWith issue.rule_id pat)
    let isCategoryExcluded := excludedCategoriesForUrls.contains issue.category &&
      (issue.severity == "low" || issue.severity == "medium")
    !isExcluded && !isCategoryExcluded

/-- The pure issue-shaping tail of `checkUrl`: combined issues are filtered for URL
applicability and then categorized into the report buckets. -/
def checkUrlReport (allIssues : List Issue) : CategorizedIssues :=
  categorizeIssues (filterUrlApplicableIssues allIssues)

/-! ### Pattern rule engine: `checkText` and the context-exception veto -/

/-- A regex match as produced by `RegExp.exec`: start index and matched text. -/
structure RMatch where
  index : Nat
  matched : String
deriving DecidableEq

/-- `RulesEngineEnhanced.isException` (`rules-engine.service.ts` lines 853-859):
a lowercase slice from 100 characters before the match to 100 characters after it
is searched for any of the rule's exception strings, case-insensitively. -/
def isException (text : String) (m : RMatch) (exceptions : List String) : Bool :=
  if exceptions.isEmpty then false
  else
    let start := m.index - 100
    let stop := min text.length (m.index + m.matched.length + 100)
    let context := strLower (String.mk (listSlice text.data start stop))
    exceptions.any fun ex => strContains context (strLower ex)

/-- Spec-side ±100-character window condition: some exception string occurs
case-insensitively in the window from 100 characters before the match's start to
100 characters after its end. -/
def occursInWindow (text : String) (m : RMatch) (exceptions : List String) : Bool :=
  exceptions.any fun ex =>
    strContains
      (strLower (String.mk (listSlice text.data (m.index - 100)
        (min text.length (m.index + m.matched.length + 100)))))
      (strLower ex)

/-- The issue built for a surviving match in `checkText`. -/
def mkCheckTextIssue (rule : Rule) (m : RMatch) : Issue :=
  { rule_id := rule.id
    type := "brand_compliance"
    category := rule.category
    severity := rule.severity
    message := rule.message
    original := m.matched
    position := some m.index
    length := some m.matched.length
    suggestion :=
      match rule.replacement with
      | some r => some r
      | none => rule.suggestion }

/-- `RulesEngineEnhanced.checkText` (`rules-engine.service.ts` lines 100-141),
parameterized by the regex-match enumerator `matcher pattern text` standing for the
`regex.exec` loop: applicable rules produce one issue per match surviving the
context-exception veto. -/
def checkText (matcher : String → String → List RMatch) (rules : List Rule)
    (text : String) (contentType : String) : List Issue :=
  if jsTrim text == "" then []
  else
    rules.flatMap fun rule =>
      let appliesTo := rule.applies_to.getD ["edm", "web", "social", "document"]
      if !appliesTo.contains contentType then []
      else
        ((matcher rule.pattern text).filter
          (fun m => !isException text m (rule.context_exceptions.getD []))).map
          (mkCheckTextIssue rule)

/-! ### Tiered content-acquisition pipeline (`part_005`, `part_003`)

Network calls are modelled as oracle outcomes: tier 1 (`scrapeWithCheerio`) either
yields a result or an error message; the two Gemini strategies of tier 2 each
either succeed or fail. The control flow of `UrlScraperService.scrapeUrl` and
`GeminiScraperService.scrapeUrl` is embedded faithfully. -/

/-- `UrlScraperService.isCloudflareOrJSError` (`part_005` lines 220-232). -/
def isCloudflareOrJSError (msg : String) : Bool :=
  let m := strLower msg
  strContains m "cloudflare" || strContains m "403" || strContains m "forbidden" ||
  strContains m "challenge" || strContains m "captcha" || strContains m "blocked" ||
  strContains m "access denied"

/-- The tier-3 exhaustion error thrown by `scrapeUrl` (`part_005` lines 75-79). -/
def manualPasteMsg : String :=
  "MANUAL_PASTE_REQUIRED: Unable to scrape this URL automatically. " ++
  "This site may have strong anti-bot protection. " ++
  "Please copy the page HTML manually and paste it, or try again later."

/-- `GeminiScraperService.scrapeUrl` (`part_003` lines 34-49): URL-context strategy
first, then search grounding, else a named combined failure. The oracle arguments
give each strategy's outcome. -/
def geminiScrapeUrl (urlCtx search : Except String Unit) : Except String String :=
  match urlCtx with
  | .ok _ => .ok "gemini-url-context"
  | .error _ =>
    match search with
    | .ok _ => .ok "gemini-search"
    | .error e => .error ("Gemini scraping failed: " ++ e)

deriving instance DecidableEq for Except

/-- Outcome of the whole pipeline plus the number of tier-1 and tier-2 attempts. -/
structure ScrapeRun where
  result : Except String String
  tier1Attempts : Nat
  tier2Attempts : Nat
deriving DecidableEq

/-- `UrlScraperService.scrapeUrl` (`part_005` lines 31-86): tier 1 once; on a
failure classified by `isCloudflareOrJSError` exactly one tier-2
(`geminiScrapeUrl`) attempt, whose exhaustion becomes the `MANUAL_PASTE_REQUIRED`
error; an unclassified tier-1 failure is rethrown with no tier-2 attempt. -/
def scrapeUrl (tier1 : Except String String) (urlCtx search : Except String Unit) :
    ScrapeRun :=
  match tier1 with
  | .ok m => { result := .ok m, tier1Attempts := 1, tier2Attempts := 0 }
  | .error e =>
    if isCloudflareOrJSError e then
      match geminiScrapeUrl urlCtx search with
      | .ok m => { result := .ok m, tier1Attempts := 1, tier2Attempts := 1 }
      | .error _ =>
        { result := .error manualPasteMsg, tier1Attempts := 1, tier2Attempts := 1 }
    else { result := .error e, tier1Attempts := 1, tier2Attempts := 0 }

/-! ### `checkNumericalFormats` (`rules-engine.service.ts` lines 146-186) -/

/-- The currency-code alternation of `/(AED|USD|EUR|GBP)(\d+)/g`. -/
def currencyCodes : List String :=
  ["AED", "USD", "EUR", "GBP"]

/-- One attempted match of `(AED|USD|EUR|GBP)(\d+)` at the head of `l`. -/
def currencyMatchAt (l : List Char) : Option (String × String) :=
  match currencyCodes.find? (fun code => needleLeads code.data l) with
  | some code =>
    let digits := (l.drop code.length).takeWhile isDigitCh
    if digits.isEmpty then none else some (code, String.mk digits)
  | none => none

/-- The `regex.exec` loop of the currency pattern: left-to-right scan, resuming
after each match; fuel bounds the recursion by the text length. -/
def scanCurrency : Nat → List Char → Nat → List (Nat × String × String)
  | 0, _, _ => []
  | _ + 1, [], _ => []
  | fuel + 1, c :: rest, idx =>
    match currencyMatchAt (c :: rest) with
    | some (code, digits) =>
      (idx, code, digits) ::
        scanCurrency fuel ((c :: rest).drop (code.length + digits.length))
          (idx + code.length + digits.length)
    | none => scanCurrency fuel rest (idx + 1)

/-- A `\b` word boundary holds before the current position: the position is the
start of the text or the previous character is a non-word character. -/
def boundaryBeforeOk (prev : Option Char) : Bool :=
  match prev with
  | none => true
  | some c => !isWordCh c

/-- Leading digit run qualifying for `\b\d{5,}\b`, given the character before the
current position (`none` at the start of the text). -/
def numRunOk (prev : Option Char) (l : List Char) : Option (List Char) :=
  if !boundaryBeforeOk prev then none
  else if (l.takeWhile isDigitCh).length < 5 then none
  else
    match l.drop (l.takeWhile isDigitCh).length with
    | [] => some (l.takeWhile isDigitCh)
    | c :: _ => if isWordCh c then none else some (l.takeWhile isDigitCh)

/-- The `regex.exec` loop of `/\b\d{5,}\b/g`, tracking the previous character for
the word-boundary test. -/
def scanLargeNumbers : Nat → Option Char → List Char → Nat → List (Nat × List Char)
  | 0, _, _, _ => []
  | _ + 1, _, [], _ => []
  | fuel + 1, prev, c :: rest, idx =>
    match numRunOk prev (c :: rest) with
    | some run =>
      (idx, run) ::
        scanLargeNumbers fuel (some (run.getLastD '0')) ((c :: rest).drop run.length)
          (idx + run.length)
    | none => scanLargeNumbers fuel (some c) rest (idx + 1)

/-- `parseInt` on a digit run. -/
def parseNatDigits (l : List Char) : Nat :=
  l.foldl (fun n c => n * 10 + (c.toNat - '0'.toNat)) 0

/-- Split a reversed digit list into groups of three (helper for
`Number.prototype.toLocaleString`). -/
def chunk3 : List Char → List (List Char)
  | [] => []
  | a :: rest => (a :: rest.take 2) :: chunk3 (rest.drop 2)
termination_by l => l.length
decreasing_by simp [List.length_drop]; omega

/-- `parseInt(n).toLocaleString()` for the default en-US locale: thousands groups
separated by commas. -/
def natToLocaleString (n : Nat) : String :=
  String.mk (List.intercalate [','] (((chunk3 (toString n).data.reverse).map List.reverse).reverse))

/-- The issue pushed for a currency match (no space between code and amount). -/
def currencyIssue (idx : Nat) (code digits : String) : Issue :=
  { rule_id := "currency_format_001"
    type := "formatting"
    category := "numerical_format"
    severity := "high"
    message := "Currency should have space: \"" ++ code ++ " " ++ digits ++ "\""
    original := code ++ digits
    suggestion := some (code ++ " " ++ digits)
    position := some idx }

/-- The issue pushed for a 5-or-more-digit run lacking separators. -/
def largeNumberIssue (idx : Nat) (run : List Char) : Issue :=
  let formatted := natToLocaleString (parseNatDigits run)
  { rule_id := "number_format_001"
    type := "formatting"
    category := "numerical_format"
    severity := "medium"
    message := "Large number should use thousand separators: \"" ++ formatted ++ "\""
    original := String.mk run
    suggestion := some formatted
    position := some idx }

/-- `RulesEngineEnhanced.checkNumericalFormats`: currency-spacing issues followed
by large-number issues. -/
def checkNumericalFormats (text : String) : List Issue :=
  if text == "" then []
  else
    ((scanCurrency text.data.length text.data 0).map fun t => currencyIssue t.1 t.2.1 t.2.2) ++
    ((scanLargeNumbers text.data.length none text.data 0).map fun t => largeNumberIssue t.1 t.2)

/-! ### `validateCustomVariables` (`rules-engine.service.ts` lines 692-820) -/

/-- The exact, case-sensitive merge-field whitelist. -/
def allowedVariables : List String :=
  ["First Name", "Last Name", "Pseudo ID", "Email", "Phone",
   "Customer CIF - Masked", "Personalization Field1", "Personalization Field2",
   "Personalization Field3", "Personalization Field4", "Customer CIF",
   "Customer Name", "Account Number", "Card Number", "Mobile Number",
   "Branch Name", "Offer Date", "Expiry Date"]

/-- Match of `/\[Field:(?!\s)([^\]]+)\]/` at the head of `l`: returns the capture
and the remainder after the closing bracket. -/
def p1MatchAt (l : List Char) : Option (List Char × List Char) :=
  if needleLeads "[Field:".data l then
    let rest := l.drop 7
    match rest with
    | [] => none
    | c :: _ =>
      if jsWsChar c then none
      else
        let cap := rest.takeWhile (fun ch => ch != ']')
        match rest.drop cap.length with
        | ']' :: after => if cap.isEmpty then none else some (cap, after)
        | _ => none
  else none

/-- `regex.exec` loop for the missing-space pattern: yields (index, capture). -/
def scanP1 : Nat → List Char → Nat → List (Nat × List Char)
  | 0, _, _ => []
  | _ + 1, [], _ => []
  | fuel + 1, c :: rest, idx =>
    match p1MatchAt (c :: rest) with
    | some (cap, after) => (idx, cap) :: scanP1 fuel after (idx + 7 + cap.length + 1)
    | none => scanP1 fuel rest (idx + 1)

/-- Backtracking of `\s+` against `([^\]]+)\]` in `/\[Field:\s+([^\]]+)\]/`:
`k` whitespace characters are consumed greedily, retreating while the capture
would be empty or unclosed. Returns (whitespace run, capture, remainder). -/
def p2TryFrom (k : Nat) (rest : List Char) : Option (List Char × List Char × List Char) :=
  match k with
  | 0 => none
  | k' + 1 =>
    let tail := rest.drop (k' + 1)
    let cap := tail.takeWhile (fun ch => ch != ']')
    match tail.drop cap.length with
    | ']' :: after =>
      if cap.isEmpty then p2TryFrom k' rest else some (rest.take (k' + 1), cap, after)
    | _ => p2TryFrom k' rest

/-- Match of `/\[Field:\s+([^\]]+)\]/` at the head of `l`. -/
def p2MatchAt (l : List Char) : Option (List Char × List Char × List Char) :=
  if needleLeads "[Field:".data l then
    let rest := l.drop 7
    p2TryFrom (rest.takeWhile jsWsChar).length rest
  else none

/-- `regex.exec` loop for the spaced pattern: yields (index, whitespace, capture). -/
def scanP2 : Nat → List Char → Nat → List (Nat × List Char × List Char)
  | 0, _, _ => []
  | _ + 1, [], _ => []
  | fuel + 1, c :: rest, idx =>
    match p2MatchAt (c :: rest) with
    | some (ws, cap, after) =>
      (idx, ws, cap) :: scanP2 fuel after (idx + 7 + ws.length + cap.length + 1)
    | none => scanP2 fuel rest (idx + 1)

/-- Tail of `/<[^>]*\[Field:[^\]]*\][^>]*>/` from a candidate `[Field:` position. -/
def tagAfterBracket (l : List Char) : Option (List Char) :=
  if needleLeads "[Field:".data l then
    let rest := l.drop 7
    let mid := rest.takeWhile (fun ch => ch != ']')
    match rest.drop mid.length with
    | ']' :: r3 =>
      let trail := r3.takeWhile (fun ch => ch != '>')
      match r3.drop trail.length with
      | '>' :: _ => some ("[Field:".data ++ mid ++ ']' :: (trail ++ ['>']))
      | _ => none
    | _ => none
  else none

/-- Greedy `[^>]*` search inside an opened tag for the `[Field:` token. -/
def tagScan : List Char → Option (List Char)
  | [] => none
  | c :: rest =>
    match (if c == '>' then none else (tagScan rest).map (fun tl => c :: tl)) with
    | some r => some r
    | none => tagAfterBracket (c :: rest)

/-- `context.match(/<[^>]*\[Field:[^\]]*\][^>]*>/)`: leftmost full-tag match. -/
def findTagMatch : List Char → Option (List Char)
  | [] => none
  | c :: rest =>
    match (if c == '<' then (tagScan rest).map (fun tl => '<' :: tl) else none) with
    | some r => some r
    | none => findTagMatch rest

/-- Character class `[^.!?\n<>]` of the sentence-extraction pattern. -/
def inSentCh (c : Char) : Bool :=
  !(c == '.' || c == '!' || c == '?' || c == '\n' || c == '<' || c == '>')

/-- Tail of `/[^.!?\n<>]*\[Field:[^\]]*\][^.!?\n<>]*/` from a `[Field:` position. -/
def sentAtBracket (l : List Char) : Option (List Char) :=
  if needleLeads "[Field:".data l then
    let rest := l.drop 7
    let mid := rest.takeWhile (fun ch => ch != ']')
    match rest.drop mid.length with
    | ']' :: r3 => some ("[Field:".data ++ mid ++ ']' :: r3.takeWhile inSentCh)
    | _ => none
  else none

/-- Greedy sentence-class run in front of the `[Field:` token. -/
def sentScan : List Char → Option (List Char)
  | [] => none
  | c :: rest =>
    match (if inSentCh c then (sentScan rest).map (fun tl => c :: tl) else none) with
    | some r => some r
    | none => sentAtBracket (c :: rest)

/-- `context.match(/[^.!?\n<>]*\[Field:[^\]]*\][^.!?\n<>]*/)`: leftmost match. -/
def sentFind : List Char → Option (List Char)
  | [] => none
  | c :: rest =>
    match sentScan (c :: rest) with
    | some r => some r
    | none => sentFind rest

/-- Context reconstruction for a missing-space issue (±100-character slice, then
HTML-tag extraction, then sentence extraction, then 150-character cap). -/
def p1Context (textData : List Char) (idx matchLen : Nat) : List Char :=
  let context := listSlice textData (idx - 100) (min textData.length (idx + matchLen + 100))
  let context2 :=
    match findTagMatch context with
    | some tagCtx => tagCtx
    | none =>
      match sentFind context with
      | some s => (jsTrim (String.mk s)).data
      | none => context
  if context2.length > 150 then
    '.' :: '.' :: '.' :: context2.drop (context2.length - 150)
  else context2

/-- The critical missing-space issue (`variable_format_001`). -/
def p1Issue (textData : List Char) (idx : Nat) (cap : List Char) : Issue :=
  let fullMatch := "[Field:".data ++ cap ++ [']']
  { rule_id := "variable_format_001"
    type := "brand_compliance"
    category := "brand_compliance"
    severity := "critical"
    message := "Variable missing space after colon"
    original := String.mk fullMatch
    suggestion := some ("[Field: " ++ jsTrim (String.mk cap) ++ "]")
    position := some idx
    found := some (String.mk fullMatch)
    context := some (String.mk (p1Context textData idx fullMatch.length)) }

/-- The whitelist check for a correctly spaced token: exact match passes; a
case-insensitive hit is a critical case mismatch (`variable_format_002`);
otherwise a medium unknown-variable issue (`variable_format_003`). -/
def p2Issues (textData : List Char) (idx : Nat) (ws cap : List Char) : List Issue :=
  let variableName := jsTrim (String.mk cap)
  let fullMatch := "[Field:".data ++ ws ++ cap ++ [']']
  let context := String.mk (listSlice textData (idx - 30)
    (min textData.length (idx + fullMatch.length + 30)))
  if allowedVariables.contains variableName then []
  else
    match allowedVariables.find? (fun a => strLower a == strLower variableName) with
    | some correctVariable =>
      [{ rule_id := "variable_format_002"
         type := "brand_compliance"
         category := "brand_compliance"
         severity := "critical"
         message := "Variable name case mismatch: \"" ++ variableName ++ "\""
         original := String.mk fullMatch
         suggestion := some ("[Field: " ++ correctVariable ++ "]")
         position := some idx
         found := some (String.mk fullMatch)
         context := some context }]
    | none =>
      [{ rule_id := "variable_format_003"
         type := "brand_compliance"
         category := "brand_compliance"
         severity := "medium"
         message := "Unknown variable: \"" ++ variableName ++ "\" - May need to be added to allowed list"
         original := String.mk fullMatch
         suggestion := some ("Verify with CRM team. Common fields: " ++
           String.intercalate ", " (allowedVariables.take 5) ++ "...")
         position := some idx
         found := some (String.mk fullMatch)
         context := some context }]

/-- `RulesEngineEnhanced.validateCustomVariables`: missing-space issues from the
first pattern, then whitelist issues from the spaced pattern. -/
def validateCustomVariables (text : String) : List Issue :=
  if text == "" then []
  else
    let d := text.data
    ((scanP1 d.length d 0).map fun t => p1Issue d t.1 t.2) ++
    ((scanP2 d.length d 0).flatMap fun t => p2Issues d t.1 t.2.1 t.2.2)

/-! ### `detectLanguages` (`part_001` lines 208-258) -/

/-- Case-insensitive front match (for the `i` regex flag). -/
def ciLeads (needle hay : List Char) : Bool :=
  needleLeads (needle.map charLower) ((hay.take needle.length).map charLower)

/-- Tail of `/<html[^>]*\slang=["']([^"']+)["']/i` at a whitespace candidate:
`\s`, then `lang=`, then a quote, then the non-empty captured value, then a
closing quote. -/
def langCapture (l : List Char) : Option (List Char) :=
  match l with
  | [] => none
  | c :: rest =>
    if jsWsChar c then
      if ciLeads "lang=".data rest then
        match rest.drop 5 with
        | [] => none
        | q :: r3 =>
          if q == Char.ofNat 34 || q == Char.ofNat 39 then
            let cap := r3.takeWhile (fun ch => !(ch == Char.ofNat 34 || ch == Char.ofNat 39))
            match r3.drop cap.length with
            | q2 :: _ =>
              if (q2 == Char.ofNat 34 || q2 == Char.ofNat 39) && !cap.isEmpty then some cap
              else none
            | [] => none
          else none
      else none
    else none

/-- Greedy `[^>]*` search for the `\slang=` attribute inside the `<html` tag. -/
def scanForLang : List Char → Option (List Char)
  | [] => none
  | c :: rest =>
    match (if c == '>' then none else scanForLang rest) with
    | some cap => some cap
    | none => langCapture (c :: rest)

/-- `text.match(/<html[^>]*\slang=["']([^"']+)["']/i)`: captured language of the
leftmost `<html ... lang="...">` occurrence. -/
def findHtmlLang : List Char → Option String
  | [] => none
  | c :: rest =>
    match (if ciLeads "<html".data (c :: rest) then scanForLang rest else none) with
    | some cap => some (String.mk cap)
    | none => findHtmlLang rest

/-- The order-of-appearance fallback of `detectLanguages` (no usable `lang`
attribute): scripts ordered by first character offset, defaulting to English. -/
def detectByOffset (d : List Char) : List String :=
  let firstArabicPos := d.findIdx? isArabicCh
  let firstEnglishPos := d.findIdx? isLatinCh
  match firstEnglishPos, firstArabicPos with
  | some e, some a => if e < a then ["eng", "ara"] else ["ara", "eng"]
  | none, some _ => ["ara"]
  | some _, none => ["eng"]
  | none, none => ["eng"]

/-- `CheckerService.detectLanguages` (`part_001` lines 208-258): an explicit
`html lang` attribute fixes the primary language, appending the other one only
when its script occurs in the input; otherwise scripts are ordered by first
occurrence offset. -/
def detectLanguages (text : String) : List String :=
  let d := text.data
  match findHtmlLang d with
  | some lang =>
    let la := strLower lang
    if strStartsWith la "en" then "eng" :: (if d.any isArabicCh then ["ara"] else [])
    else if strStartsWith la "ar" then "ara" :: (if d.any isLatinCh then ["eng"] else [])
    else detectByOffset d
  | none => detectByOffset d

/-! ### SEO analyzer (`part_000`, `SeoAnalyzerService`) -/

/-- Per-aspect record with a 0-100 score (title and meta-description analyses). -/
structure AspectScore where
  content : String
  length : Nat
  score : Int
  issues : List String
deriving DecidableEq

/-- `SeoAnalyzerService.analyzeTitle` over the extracted title text. -/
def analyzeTitle (content : String) : AspectScore :=
  let length := content.length
  if content == "" then
    { content := content, length := length, score := 0, issues := ["Missing title tag"] }
  else
    let issues1 : List String :=
      if length < 30 then ["Title is too short (recommended: 50-60 characters)"]
      else if length > 60 then ["Title is too long and may be truncated in search results"]
      else []
    let score1 : Int := 100 - (if length < 30 then 30 else if length > 60 then 20 else 0)
    let score2 : Int := score1 - (if 0 < length && length < 50 then 10 else 0)
    let startsCapital : Bool :=
      match content.data with
      | c :: _ => 'A' ≤ c && c ≤ 'Z'
      | [] => false
    let issues2 := issues1 ++
      (if !startsCapital then ["Title should start with a capital letter"] else [])
    let score3 : Int := score2 - (if !startsCapital then 5 else 0)
    { content := content, length := length, score := max 0 score3, issues := issues2 }

/-- The call-to-action word list of `analyzeMetaDescription`. -/
def ctaWords : List String :=
  ["discover", "learn", "find", "get", "explore", "see", "try", "shop", "buy", "download"]

/-- `SeoAnalyzerService.analyzeMetaDescription` over the meta-description text. -/
def analyzeMetaDescription (content : String) : AspectScore :=
  let length := content.length
  if content == "" then
    { content := content, length := length, score := 0, issues := ["Missing meta description"] }
  else
    let issues1 : List String :=
      if length < 120 then ["Meta description is too short (recommended: 150-160 characters)"]
      else if length > 160 then ["Meta description is too long and may be truncated"]
      else []
    let score1 : Int := 100 - (if length < 120 then 30 else if length > 160 then 20 else 0)
    let score2 : Int := score1 - (if 0 < length && length < 150 then 10 else 0)
    let hasCTA := ctaWords.any (fun w => strContains (strLower content) w)
    let issues2 := issues1 ++
      (if !hasCTA then ["Consider adding a call-to-action in your meta description"] else [])
    let score3 : Int := score2 - (if !hasCTA then 10 else 0)
    { content := content, length := length, score := max 0 score3, issues := issues2 }

/-- The fields of the per-aspect analyses that `calculateOverallScore` reads. -/
structure SeoAnalysisSummary where
  title : AspectScore
  metaDescription : AspectScore
  ogPresent : Bool
  ogIssueCount : Nat
  twitterPresent : Bool
  twitterIssueCount : Nat
  technicalIssueCount : Nat
  headingIssueCount : Nat
  h1Count : Nat
  schemasFound : Bool
  schemaIssueCount : Nat
  imagesTotal : Nat
  imagesWithoutAlt : Nat

/-- JavaScript `Math.round` on the exact rational value (round half up). -/
def jsRound (q : ℚ) : ℤ :=
  ⌊q + 1 / 2⌋

/-- `SeoAnalyzerService.calculateOverallScore` (`part_000` lines 1166-1230): the
accumulated `maxScore` is 15+15+10+5+20+15+10+10 = 100 and the result is
`Math.round(score / maxScore * 100)`. -/
def calculateOverallScore (a : SeoAnalysisSummary) : ℤ :=
  let score1 : ℚ := ((a.title.score : ℚ) / 100) * 15
  let score2 : ℚ := score1 + ((a.metaDescription.score : ℚ) / 100) * 15
  let score3 : ℚ := score2 +
    (if a.ogPresent && a.ogIssueCount == 0 then 10 else if a.ogPresent then 5 else 0)
  let score4 : ℚ := score3 +
    (if a.twitterPresent && a.twitterIssueCount == 0 then 5 else if a.twitterPresent then 2 else 0)
  let score5 : ℚ := score4 +
    (if a.technicalIssueCount == 0 then 20 else max 0 (20 - (a.technicalIssueCount : ℚ) * 4))
  let score6 : ℚ := score5 +
    (if a.headingIssueCount == 0 && a.h1Count == 1 then 15
     else max 0 (15 - (a.headingIssueCount : ℚ) * 3))
  let score7 : ℚ := score6 +
    (if a.schemasFound && a.schemaIssueCount == 0 then 10 else if a.schemasFound then 5 else 0)
  let score8 : ℚ := score7 +
    (if a.imagesTotal > 0 && a.imagesWithoutAlt == 0 then 10
     else if a.imagesTotal > 0 then (1 - (a.imagesWithoutAlt : ℚ) / (a.imagesTotal : ℚ)) * 10
     else 10)
  let maxScore : ℚ := 100
  jsRound (score8 / maxScore * 100)

/-- Spec-side independent 0-100 sub-score of the Open Graph aspect. -/
def ogSub (a : SeoAnalysisSummary) : ℚ :=
  if a.ogPresent && a.ogIssueCount == 0 then 100 else if a.ogPresent then 50 else 0

/-- Spec-side independent 0-100 sub-score of the Twitter Card aspect. -/
def twitterSub (a : SeoAnalysisSummary) : ℚ :=
  if a.twitterPresent && a.twitterIssueCount == 0 then 100 else if a.twitterPresent then 40 else 0

/-- Spec-side independent 0-100 sub-score of the technical aspect. -/
def technicalSub (a : SeoAnalysisSummary) : ℚ :=
  if a.technicalIssueCount == 0 then 100 else max 0 (100 - 20 * (a.technicalIssueCount : ℚ))

/-- Spec-side independent 0-100 sub-score of the headings aspect. -/
def headingSub (a : SeoAnalysisSummary) : ℚ :=
  if a.headingIssueCount == 0 && a.h1Count == 1 then 100
  else max 0 (100 - 20 * (a.headingIssueCount : ℚ))

/-- Spec-side independent 0-100 sub-score of the schema aspect. -/
def schemaSub (a : SeoAnalysisSummary) : ℚ :=
  if a.schemasFound && a.schemaIssueCount == 0 then 100 else if a.schemasFound then 50 else 0

/-- Spec-side independent 0-100 sub-score of the image alt-text aspect. -/
def imagesSub (a : SeoAnalysisSummary) : ℚ :=
  if a.imagesTotal == 0 then 100
  else (1 - (a.imagesWithoutAlt : ℚ) / (a.imagesTotal : ℚ)) * 100

/-- Spec-side composite: the weighted sum over the eight independent 0-100
sub-scores (title 15%, description 15%, OG 10%, Twitter 5%, technical 20%,
headings 15%, schema 10%, images 10%), rounded to the nearest integer. -/
def seoCompositeSpec (a : SeoAnalysisSummary) : ℤ :=
  jsRound ((15 * (a.title.score : ℚ) + 15 * (a.metaDescription.score : ℚ) +
    10 * ogSub a + 5 * twitterSub a + 20 * technicalSub a + 15 * headingSub a +
    10 * schemaSub a + 10 * imagesSub a) / 100)

/-! ### Concrete example inputs used in the theorems below -/

/-- An issue whose only relevant datum is its severity. -/
def sevIssue (sev : String) : Issue :=
  { rule_id := "r", type := "t", category := "c", severity := sev, message := "m", original := "o" }

/-- A categorized collection with exactly 1 critical, 2 high, 0 medium and 3 low
issues. -/
def c1Example : CategorizedIssues :=
  { grammar := [sevIssue "low", sevIssue "low", sevIssue "low"]
    brand := []
    numerical := []
    links := [sevIssue "critical"]
    images := [sevIssue "high", sevIssue "high"]
    cta := []
    tone := []
    legal := []
    accessibility := [] }

/-- Rule id and severity of an issue (summary projection). -/
def issueSummary (i : Issue) : String × String :=
  (i.rule_id, i.severity)

/-- The critical locale-mismatch issue emitted by `validateLinks`
(`rules-engine.service.ts` lines 381-392). -/
def langMismatchIssue : Issue :=
  { rule_id := "language_mismatch_001"
    type := "language_validation"
    category := "language_mismatch"
    severity := "critical"
    message := "English content contains Arabic page link"
    original := "https://www.example.com/ar/offer"
    found := some "https://www.example.com/ar/offer"
    link_text := some "View offer"
    suggestion := some "Ensure all links point to English pages" }

/-- Analysis summary assembled from the title/meta analyzers and the remaining
aspect statistics. -/
def seoSummaryOf (tc mc : String) (ogP twP sf : Bool)
    (ogI twI tecI headI h1C schI imgT imgWA : Nat) : SeoAnalysisSummary :=
  { title := analyzeTitle tc
    metaDescription := analyzeMetaDescription mc
    ogPresent := ogP
    ogIssueCount := ogI
    twitterPresent := twP
    twitterIssueCount := twI
    technicalIssueCount := tecI
    headingIssueCount := headI
    h1Count := h1C
    schemasFound := sf
    schemaIssueCount := schI
    imagesTotal := imgT
    imagesWithoutAlt := imgWA }

/-- The character immediately before offset `k` of the scan that starts with
previous character `prev` (used to state where a `\b` boundary can hold). -/
def prevCharAt (prev : Option Char) (l : List Char) (k : Nat) : Option Char :=
  if k = 0 then prev else l.get? (k - 1)

/-- A template-only issue (rule id begins with `font_family`), as emitted by
`validateFontFamily`. -/
def fontFamilyIssueEx : Issue :=
  { rule_id := "font_family_arabic_001"
    type := "brand_compliance"
    category := "brand_compliance"
    severity := "critical"
    message := "Arabic content must use \"Tajawal, sans-serif\" font"
    original := "Courier New"
    suggestion := some "Tajawal, sans-serif" }

/-- A medium CTA issue, as emitted by `checkCTA`. -/
def ctaIssueEx : Issue :=
  { rule_id := "cta_optimization"
    type := "cta_optimization"
    category := "cta"
    severity := "medium"
    message := "Generic CTA detected"
    original := ""
    suggestion := some "Use action-oriented CTAs: \"Apply Now\", \"Start Earning\", \"Get Your Quote\"" }

/-- A URL-applicable issue (missing UTM parameters), as emitted by
`validateLinks`, untouched by the URL-mode filter. -/
def utmIssueEx : Issue :=
  { rule_id := "utm_tracking_001"
    type := "link_validation"
    category := "utm_tracking"
    severity := "medium"
    message := "Link missing UTM tracking parameters"
    original := "https://www.example.com/offers"
    found := some "https://www.example.com/offers"
    link_text := some "Offers"
    suggestion := some "Add tracking: https://www.example.com/offers?utm_source=edm&utm_medium=email" }

/-- A brand rule with a context exception, as loaded from the YAML catalogue. -/
def c5RuleEx : Rule :=
  { id := "brand_001"
    category := "brand_compliance"
    severity := "high"
    pattern := "ACME"
    replacement := some "Acme"
    message := "Use proper casing"
    context_exceptions := some ["approved"]
    applies_to := none }

/-! ## Theorems -/

/-- C1: for every categorized issue collection, the compliance score computed by
`calculateMetrics` equals `max(0, 100 − (20·critical + 10·high + 5·medium +
2·low))`; in particular 1 critical, 2 high, 0 medium and 3 low issues yield a
compliance score of 54. -/
theorem c1_calculateMetrics_score :
    (∀ c : CategorizedIssues,
      (calculateMetrics c).complianceScore =
        max 0 (100 - (20 * (countSeverity "critical" (flattenCategorized c) : Int) +
          10 * (countSeverity "high" (flattenCategorized c) : Int) +
          5 * (countSeverity "medium" (flattenCategorized c) : Int) +
          2 * (countSeverity "low" (flattenCategorized c) : Int)))) ∧
    calculateMetrics c1Example =
      { totalIssues := 6, criticalIssues := 1, highIssues := 2, mediumIssues := 0,
        lowIssues := 3, complianceScore := 54 } := by
  constructor
  · intro c
    simp only [calculateMetrics, countSeverity]
    omega
  · decide

/-- C3 counterexample: on the input `"[Field: lastname]"` the validator emits a
single medium-severity unknown-variable issue (`variable_format_003`), not the
critical case-mismatch issue the claim asserts — the case-insensitive whitelist
lookup compares `"lastname"` with `"last name"`, which also differ by a space. -/
theorem c3_case_mismatch_counterexample :
    (validateCustomVariables "[Field: lastname]").map issueSummary =
      [("variable_format_003", "medium")] := by
  decide

/-- C3 (amended): `"[Field:LastName]"` yields one critical missing-space issue
suggesting `"[Field: LastName]"`; `"[Field: lastname]"` yields one medium
unknown-variable issue (its name does not match the whitelist even
case-insensitively, since the space is missing); `"[Field: last name]"`, which
differs from the whitelisted `"Last Name"` only in case, yields one critical
case-mismatch issue; `"[Field: Last Name]"` yields zero issues — each emitted
issue carrying a reconstructed surrounding context. -/
theorem c3_validateCustomVariables_amended :
    validateCustomVariables "[Field:LastName]" =
      [{ rule_id := "variable_format_001"
         type := "brand_compliance"
         category := "brand_compliance"
         severity := "critical"
         message := "Variable missing space after colon"
         original := "[Field:LastName]"
         suggestion := some "[Field: LastName]"
         position := some 0
         context := some "[Field:LastName]"
         found := some "[Field:LastName]" }] ∧
    validateCustomVariables "[Field: lastname]" =
      [{ rule_id := "variable_format_003"
         type := "brand_compliance"
         category := "brand_compliance"
         severity := "medium"
         message := "Unknown variable: \"lastname\" - May need to be added to allowed list"
         original := "[Field: lastname]"
         suggestion := some ("Verify with CRM team. Common fields: " ++
           "First Name, Last Name, Pseudo ID, Email, Phone...")
         position := some 0
         context := some "[Field: lastname]"
         found := some "[Field: lastname]" }] ∧
    validateCustomVariables "[Field: last name]" =
      [{ rule_id := "variable_format_002"
         type := "brand_compliance"
         category := "brand_compliance"
         severity := "critical"
         message := "Variable name case mismatch: \"last name\""
         original := "[Field: last name]"
         suggestion := some "[Field: Last Name]"
         position := some 0
         context := some "[Field: last name]"
         found := some "[Field: last name]" }] ∧
    validateCustomVariables "[Field: Last Name]" = [] := by
  refine ⟨by decide, by decide, by decide, by decide⟩

/-- C2: tier 2 is attempted exactly when tier 1 fails with a defense-classified
error message; an unclassified tier-1 failure is rethrown with no tier-2 attempt;
genuine failure messages (DNS, connection refused, timeout, non-HTML) are not
classified as defensive; and a tier-1 "HTTP 403: Forbidden" failure leads to
exactly one tier-2 attempt with tier 1 attempted exactly once. -/
theorem c2_tier_escalation :
    (∀ (t1 : Except String String) (u s : Except String Unit),
      (scrapeUrl t1 u s).tier1Attempts = 1) ∧
    (∀ (e : String) (u s : Except String Unit),
      (scrapeUrl (.error e) u s).tier2Attempts =
        if isCloudflareOrJSError e then 1 else 0) ∧
    (∀ (m : String) (u s : Except String Unit),
      (scrapeUrl (.ok m) u s).tier2Attempts = 0) ∧
    (∀ (e : String) (u s : Except String Unit), isCloudflareOrJSError e = false →
      scrapeUrl (.error e) u s = { result := .error e, tier1Attempts := 1, tier2Attempts := 0 }) ∧
    (∀ (u s : Except String Unit),
      (scrapeUrl (.error "HTTP 403: Forbidden") u s).tier1Attempts = 1 ∧
      (scrapeUrl (.error "HTTP 403: Forbidden") u s).tier2Attempts = 1) ∧
    isCloudflareOrJSError "URL not found. Please check the URL and try again." = false ∧
    isCloudflareOrJSError "Connection refused. The server may be down." = false ∧
    isCloudflareOrJSError "Request timeout. The page took too long to load." = false ∧
    isCloudflareOrJSError "URL did not return HTML content (received: application/pdf)" = false := by
  refine ⟨?_, ?_, ?_, ?_, ?_, by decide, by decide, by decide, by decide⟩
  · intro t1 u s
    cases t1 with
    | ok m => rfl
    | error e =>
      simp only [scrapeUrl]
      split
      · cases geminiScrapeUrl u s <;> rfl
      · rfl
  · intro e u s
    simp only [scrapeUrl]
    split
    · cases geminiScrapeUrl u s <;> simp_all
    · simp_all
  · intro m u s
    rfl
  · intro e u s h
    simp [scrapeUrl, h]
  · intro u s
    have h : isCloudflareOrJSError "HTTP 403: Forbidden" = true := by decide
    constructor
    · simp only [scrapeUrl, h]
      cases geminiScrapeUrl u s <;> rfl
    · simp only [scrapeUrl, h]
      cases geminiScrapeUrl u s <;> rfl

/-- C2 witness: a concrete unclassified DNS-style tier-1 failure is rethrown
unchanged with no tier-2 attempt. -/
theorem c2_tier_escalation_witness :
    isCloudflareOrJSError "URL not found. Please check the URL and try again." = false ∧
    scrapeUrl (.error "URL not found. Please check the URL and try again.") (.ok ()) (.ok ()) =
      { result := .error "URL not found. Please check the URL and try again."
        tier1Attempts := 1, tier2Attempts := 0 } :=
  ⟨by decide,
    c2_tier_escalation.2.2.2.1 "URL not found. Please check the URL and try again."
      (.ok ()) (.ok ()) (by decide)⟩

/-- C4: when tier 1 fails with a defense-classified error and both tier-2
strategies fail, `scrapeUrl` terminates with the named `MANUAL_PASTE_REQUIRED`
exhaustion failure; on a classified tier-1 failure the pipeline yields exactly
one of success-with-method or that named failure; and a tier-1 success is
returned directly. -/
theorem c4_exhaustion_failure :
    (∀ (e eu es : String), isCloudflareOrJSError e = true →
      scrapeUrl (.error e) (.error eu) (.error es) =
        { result := .error manualPasteMsg, tier1Attempts := 1, tier2Attempts := 1 }) ∧
    (∀ (e : String) (u s : Except String Unit), isCloudflareOrJSError e = true →
      (scrapeUrl (.error e) u s).result = .error manualPasteMsg ∨
      (scrapeUrl (.error e) u s).result = .ok "gemini-url-context" ∨
      (scrapeUrl (.error e) u s).result = .ok "gemini-search") ∧
    (∀ (m : String) (u s : Except String Unit), (scrapeUrl (.ok m) u s).result = .ok m) ∧
    strStartsWith manualPasteMsg "MANUAL_PASTE_REQUIRED" = true := by
  refine ⟨?_, ?_, ?_, by decide⟩
  · intro e eu es h
    simp [scrapeUrl, h, geminiScrapeUrl]
  · intro e u s h
    simp only [scrapeUrl, h, if_true]
    cases hu : u with
    | ok _ => simp [geminiScrapeUrl]
    | error _ =>
      cases hs : s with
      | ok _ => simp [geminiScrapeUrl]
      | error _ => simp [geminiScrapeUrl]
  · intro m u s
    rfl

/-- C4 witness: with a concrete Cloudflare-classified tier-1 failure and both
Gemini strategies failing, the run ends in the named exhaustion failure after one
tier-2 attempt. -/
theorem c4_exhaustion_failure_witness :
    isCloudflareOrJSError "CLOUDFLARE_DETECTED: Site is protected by Cloudflare" = true ∧
    scrapeUrl (.error "CLOUDFLARE_DETECTED: Site is protected by Cloudflare")
        (.error "URL Context extraction failed: timeout")
        (.error "Google Search grounding failed: timeout") =
      { result := .error manualPasteMsg, tier1Attempts := 1, tier2Attempts := 1 } :=
  ⟨by decide,
    c4_exhaustion_failure.1 "CLOUDFLARE_DETECTED: Site is protected by Cloudflare"
      "URL Context extraction failed: timeout" "Google Search grounding failed: timeout"
      (by decide)⟩

/-- Membership in the flattened categorized report implies membership in the
underlying issue list (every bucket is a filter of it). -/
theorem mem_of_mem_flatten_categorize {l : List Issue} {i : Issue}
    (h : i ∈ flattenCategorized (categorizeIssues l)) : i ∈ l := by
  simp only [flattenCategorized, categorizeIssues, List.mem_append, List.mem_filter] at h
  tauto

/-- C6: in URL mode, an issue whose rule id begins with a template-only prefix is
absent from the categorized report; cta/tone issues of low or medium severity are
removed; all other issues pass the filter unchanged. -/
theorem c6_url_mode_exclusions :
    ∀ (issues : List Issue) (i : Issue),
      ((∃ p ∈ excludedRuleIds, strStartsWith i.rule_id p = true) →
        i ∉ flattenCategorized (checkUrlReport issues)) ∧
      ((i.category = "cta" ∨ i.category = "tone") →
        (i.severity = "low" ∨ i.severity = "medium") →
        i ∉ flattenCategorized (checkUrlReport issues)) ∧
      ((∀ p ∈ excludedRuleIds, strStartsWith i.rule_id p = false) →
        ¬((i.category = "cta" ∨ i.category = "tone") ∧
          (i.severity = "low" ∨ i.severity = "medium")) →
        (i ∈ filterUrlApplicableIssues issues ↔ i ∈ issues)) := by
  intro issues i
  refine ⟨?_, ?_, ?_⟩
  · rintro ⟨p, hp, hsw⟩ hmem
    have hfil : i ∈ filterUrlApplicableIssues issues := by
      simpa only [checkUrlReport] using mem_of_mem_flatten_categorize hmem
    rw [filterUrlApplicableIssues, List.mem_filter] at hfil
    have hcond := hfil.2
    simp only [Bool.and_eq_true, Bool.not_eq_true', List.any_eq_false] at hcond
    exact absurd hsw (by simpa using hcond.1 p hp)
  · intro hcat hsev hmem
    have hfil : i ∈ filterUrlApplicableIssues issues := by
      simpa only [checkUrlReport] using mem_of_mem_flatten_categorize hmem
    rw [filterUrlApplicableIssues, List.mem_filter] at hfil
    have hcond := hfil.2
    simp only [Bool.and_eq_true, Bool.not_eq_true'] at hcond
    have hc : excludedCategoriesForUrls.contains i.category = true := by
      rcases hcat with h | h <;> simp [excludedCategoriesForUrls, h]
    have hs : (i.severity == "low" || i.severity == "medium") = true := by
      rcases hsev with h | h <;> simp [h]
    rw [hc, hs] at hcond
    simp at hcond
  · intro hids hnot
    rw [filterUrlApplicableIssues, List.mem_filter]
    constructor
    · exact fun h => h.1
    · intro h
      refine ⟨h, ?_⟩
      simp only [Bool.and_eq_true, Bool.not_eq_true', List.any_eq_false]
      constructor
      · intro p hp
        simp [hids p hp]
      · rcases Bool.eq_false_or_eq_true (excludedCategoriesForUrls.contains i.category) with
          hc | hc
        · have hcat : i.category = "cta" ∨ i.category = "tone" := by
            simpa [excludedCategoriesForUrls] using hc
          have hsev : ¬(i.severity = "low" ∨ i.severity = "medium") := fun hs => hnot ⟨hcat, hs⟩
          rw [hc]
          simp only [Bool.true_and]
          simpa using hsev
        · rw [hc]
          simp

/-- C6 witness: a `font_family`-prefixed issue never reaches the URL-mode
report, a medium CTA issue is removed, and a UTM-tracking link issue passes the
filter. -/
theorem c6_url_mode_exclusions_witness :
    fontFamilyIssueEx ∉ flattenCategorized (checkUrlReport [fontFamilyIssueEx]) ∧
    ctaIssueEx ∉ flattenCategorized (checkUrlReport [ctaIssueEx, utmIssueEx]) ∧
    (utmIssueEx ∈ filterUrlApplicableIssues [ctaIssueEx, utmIssueEx] ↔
      utmIssueEx ∈ [ctaIssueEx, utmIssueEx]) :=
  ⟨(c6_url_mode_exclusions [fontFamilyIssueEx] fontFamilyIssueEx).1
      ⟨"font_family", by decide, by decide⟩,
   (c6_url_mode_exclusions [ctaIssueEx, utmIssueEx] ctaIssueEx).2.1
      (Or.inl (by decide)) (Or.inr (by decide)),
   (c6_url_mode_exclusions [ctaIssueEx, utmIssueEx] utmIssueEx).2.2
      (by decide) (by decide)⟩

/-- C7: an issue with type `language_validation` and category
`language_mismatch` (the critical locale-mismatch finding of `validateLinks`)
satisfies none of the nine bucket predicates of `categorizeIssues`, so it is
absent from the categorized report and leaves the metrics — in particular the
compliance score — unchanged. -/
theorem c7_language_mismatch_dropped :
    ∀ (i : Issue) (issues : List Issue),
      i.type = "language_validation" → i.category = "language_mismatch" →
      i ∉ flattenCategorized (categorizeIssues issues) ∧
      calculateMetrics (categorizeIssues (i :: issues)) =
        calculateMetrics (categorizeIssues issues) := by
  intro i issues htype hcat
  have hacc : strContains "language_mismatch" "accessibility" = false := by decide
  have hbuckets : categorizeIssues (i :: issues) = categorizeIssues issues := by
    simp [categorizeIssues, List.filter_cons, htype, hcat, hacc]
  constructor
  · intro hmem
    simp only [flattenCategorized, categorizeIssues, List.mem_append, List.mem_filter] at hmem
    simp [htype, hcat, hacc] at hmem
  · rw [hbuckets]

/-- C7 witness: the concrete `language_mismatch_001` issue of `validateLinks` is
absent from its own categorized report and does not change the metrics of a
report containing one critical issue. -/
theorem c7_language_mismatch_dropped_witness :
    langMismatchIssue ∉ flattenCategorized (categorizeIssues [langMismatchIssue]) ∧
    calculateMetrics (categorizeIssues (langMismatchIssue :: [sevIssue "critical"])) =
      calculateMetrics (categorizeIssues [sevIssue "critical"]) :=
  ⟨(c7_language_mismatch_dropped langMismatchIssue [langMismatchIssue] rfl rfl).1,
   (c7_language_mismatch_dropped langMismatchIssue [sevIssue "critical"] rfl rfl).2⟩

/-- The code's `isException` predicate coincides (also on an empty exception
list) with the spec's ±100-character window condition. -/
theorem isException_eq_occursInWindow (text : String) (m : RMatch)
    (exceptions : List String) :
    isException text m exceptions = occursInWindow text m exceptions := by
  rw [isException, occursInWindow]
  rcases exceptions with _ | ⟨e, es⟩
  · simp
  · simp [List.isEmpty]

/-- C5: the context-exception veto of `checkText` — `isException` is exactly the
±100-character-window occurrence condition, and a regex match inside such a
window produces no issue at its position, regardless of other matches of the
rule in the same text. -/
theorem c5_context_exception_suppression :
    (∀ (text : String) (m : RMatch) (exceptions : List String),
      isException text m exceptions = occursInWindow text m exceptions) ∧
    (∀ (matcher : String → String → List RMatch) (rule : Rule)
      (text contentType : String) (m : RMatch),
      m ∈ matcher rule.pattern text →
      occursInWindow text m (rule.context_exceptions.getD []) = true →
      (∀ m' ∈ matcher rule.pattern text, m'.index = m.index → m' = m) →
      (checkText matcher [rule] text contentType).all
        (fun i => i.position != some m.index) = true) := by
  refine ⟨isException_eq_occursInWindow, ?_⟩
  intro matcher rule text ct m hm hocc huniq
  rw [checkText]
  split
  · rfl
  · simp only [List.flatMap_cons, List.flatMap_nil, List.append_nil]
    split
    · rfl
    · rw [List.all_eq_true]
      intro i hi
      rw [List.mem_map] at hi
      obtain ⟨m', hm', rfl⟩ := hi
      rw [List.mem_filter] at hm'
      obtain ⟨hm'mem, hnotex⟩ := hm'
      simp only [mkCheckTextIssue, bne_iff_ne, ne_eq, Option.some.injEq]
      intro hEq
      have hmm : m' = m := huniq m' hm'mem hEq
      rw [hmm, Bool.not_eq_true', isException_eq_occursInWindow, hocc] at hnotex
      exact Bool.noConfusion hnotex

/-- C5 witness: a concrete `ACME` match sitting next to the listed exception
`approved` yields no issue at its position. -/
theorem c5_context_exception_suppression_witness :
    occursInWindow "approved ACME" ⟨9, "ACME"⟩ ["approved"] = true ∧
    (checkText (fun _ _ => [⟨9, "ACME"⟩]) [c5RuleEx] "approved ACME" "edm").all
      (fun i => i.position != some 9) = true :=
  ⟨by decide,
    c5_context_exception_suppression.2 (fun _ _ => [⟨9, "ACME"⟩]) c5RuleEx
      "approved ACME" "edm" ⟨9, "ACME"⟩ (by simp)
      (by decide)
      (by intro m' h1 _; simpa using h1)⟩

/-- C8: `detectLanguages` honors an explicit `html lang` declaration as primary,
appending the other language only when its script occurs in the input; with no
such declaration it orders the two scripts by first character offset; Latin-only
text (no declaration) yields the single-language result `["eng"]`; and mixed text
whose Arabic script appears first by offset yields the Arabic-first order. -/
theorem c8_detectLanguages_order :
    (∀ (text : String) (l : String), findHtmlLang text.data = some l →
      strStartsWith (strLower l) "en" = true →
      detectLanguages text = "eng" :: (if text.data.any isArabicCh then ["ara"] else [])) ∧
    (∀ (text : String) (l : String), findHtmlLang text.data = some l →
      strStartsWith (strLower l) "en" = false → strStartsWith (strLower l) "ar" = true →
      detectLanguages text = "ara" :: (if text.data.any isLatinCh then ["eng"] else [])) ∧
    (∀ text : String, findHtmlLang text.data = none →
      text.data.any isLatinCh = true → text.data.any isArabicCh = false →
      detectLanguages text = ["eng"]) ∧
    (∀ (text : String) (a e : Nat), findHtmlLang text.data = none →
      text.data.findIdx? isArabicCh = some a → text.data.findIdx? isLatinCh = some e →
      a < e → detectLanguages text = ["ara", "eng"]) := by
  refine ⟨?_, ?_, ?_, ?_⟩
  · intro text l h hen
    simp only [detectLanguages]
    rw [h]
    simp [hen]
  · intro text l h hen har
    simp only [detectLanguages]
    rw [h]
    simp [hen, har]
  · intro text h hlat hara
    simp only [detectLanguages]
    rw [h, detectByOffset]
    have hn : text.data.findIdx? isArabicCh = none := by
      rw [List.findIdx?_eq_none_iff]
      intro x hx
      have := List.any_eq_false.mp hara x hx
      simpa using this
    rcases he : text.data.findIdx? isLatinCh with _ | e
    · exfalso
      rw [List.findIdx?_eq_none_iff] at he
      obtain ⟨x, hx, hpx⟩ := List.any_eq_true.mp hlat
      exact absurd hpx (by simp [he x hx])
    · rw [hn]
  · intro text a e h ha he hlt
    have hne : ¬(e < a) := by omega
    simp [detectLanguages, detectByOffset, h, ha, he, hne]

/-- C8 witness: a declared-English page with Arabic in the body, a declared-Arabic
page, a Latin-only text, and a mixed Arabic-first text. -/
theorem c8_detectLanguages_order_witness :
    detectLanguages "<html lang=\"en\"><body>عرض hello</body></html>" = ["eng", "ara"] ∧
    detectLanguages "<html lang=\"ar-AE\"><body>مرحبا</body></html>" = ["ara", "eng"] ∧
    detectLanguages "Latin only text" = ["eng"] ∧
    detectLanguages "مرحبا then hello" = ["ara", "eng"] :=
  ⟨(c8_detectLanguages_order.1 "<html lang=\"en\"><body>عرض hello</body></html>" "en"
      (by decide) (by decide)).trans (by decide),
   (c8_detectLanguages_order.2.1 "<html lang=\"ar-AE\"><body>مرحبا</body></html>" "ar-AE"
      (by decide) (by decide) (by decide)).trans (by decide),
   c8_detectLanguages_order.2.2.1 "Latin only text" (by decide) (by decide) (by decide),
   c8_detectLanguages_order.2.2.2 "مرحبا then hello" 0 6 (by decide) (by decide) (by decide)
     (by decide)⟩

/-- The title analyzer's sub-score lies in 0-100. -/
theorem analyzeTitle_score_bounds (c : String) :
    0 ≤ (analyzeTitle c).score ∧ (analyzeTitle c).score ≤ 100 := by
  simp only [analyzeTitle]
  split_ifs <;> dsimp only <;> omega

/-- The meta-description analyzer's sub-score lies in 0-100. -/
theorem analyzeMetaDescription_score_bounds (c : String) :
    0 ≤ (analyzeMetaDescription c).score ∧ (analyzeMetaDescription c).score ≤ 100 := by
  simp only [analyzeMetaDescription]
  split_ifs <;> dsimp only <;> omega

/-- The Open Graph contribution of the code equals 10% of its 0-100 sub-score. -/
theorem og_contrib (a : SeoAnalysisSummary) :
    (if a.ogPresent && a.ogIssueCount == 0 then (10 : ℚ) else if a.ogPresent then 5 else 0) =
      10 * ogSub a / 100 := by
  rw [ogSub]
  split_ifs <;> norm_num

/-- The Twitter Card contribution equals 5% of its 0-100 sub-score. -/
theorem twitter_contrib (a : SeoAnalysisSummary) :
    (if a.twitterPresent && a.twitterIssueCount == 0 then (5 : ℚ)
      else if a.twitterPresent then 2 else 0) = 5 * twitterSub a / 100 := by
  rw [twitterSub]
  split_ifs <;> norm_num

/-- The technical contribution equals 20% of its 0-100 sub-score. -/
theorem technical_contrib (a : SeoAnalysisSummary) :
    (if a.technicalIssueCount == 0 then (20 : ℚ)
      else max 0 (20 - (a.technicalIssueCount : ℚ) * 4)) = 20 * technicalSub a / 100 := by
  rw [technicalSub]
  split_ifs with h
  · norm_num
  · rcases le_total ((a.technicalIssueCount : ℚ)) 5 with hc | hc
    · rw [max_eq_right (by linarith), max_eq_right (by linarith)]
      ring
    · rw [max_eq_left (by linarith), max_eq_left (by linarith)]
      norm_num

/-- The headings contribution equals 15% of its 0-100 sub-score. -/
theorem heading_contrib (a : SeoAnalysisSummary) :
    (if a.headingIssueCount == 0 && a.h1Count == 1 then (15 : ℚ)
      else max 0 (15 - (a.headingIssueCount : ℚ) * 3)) = 15 * headingSub a / 100 := by
  rw [headingSub]
  split_ifs with h
  · norm_num
  · rcases le_total ((a.headingIssueCount : ℚ)) 5 with hc | hc
    · rw [max_eq_right (by linarith), max_eq_right (by linarith)]
      ring
    · rw [max_eq_left (by linarith), max_eq_left (by linarith)]
      norm_num

/-- The schema contribution equals 10% of its 0-100 sub-score. -/
theorem schema_contrib (a : SeoAnalysisSummary) :
    (if a.schemasFound && a.schemaIssueCount == 0 then (10 : ℚ)
      else if a.schemasFound then 5 else 0) = 10 * schemaSub a / 100 := by
  rw [schemaSub]
  split_ifs <;> norm_num

/-- The image alt-text contribution equals 10% of its 0-100 sub-score. -/
theorem images_contrib (a : SeoAnalysisSummary) :
    (if a.imagesTotal > 0 && a.imagesWithoutAlt == 0 then (10 : ℚ)
      else if a.imagesTotal > 0 then (1 - (a.imagesWithoutAlt : ℚ) / (a.imagesTotal : ℚ)) * 10
      else 10) = 10 * imagesSub a / 100 := by
  rw [imagesSub]
  split_ifs <;> simp_all
  ring

/-- The code score of `calculateOverallScore` is exactly the spec-side weighted
sum of independent sub-scores, rounded. -/
theorem calculateOverallScore_eq_spec (a : SeoAnalysisSummary) :
    calculateOverallScore a = seoCompositeSpec a := by
  simp only [calculateOverallScore, seoCompositeSpec]
  rw [og_contrib a, twitter_contrib a, technical_contrib a, heading_contrib a,
    schema_contrib a, images_contrib a]
  congr 1
  ring

/-- Rounding a value in [0, 100] stays in [0, 100]. -/
theorem jsRound_bounds {q : ℚ} (h0 : 0 ≤ q) (h1 : q ≤ 100) :
    0 ≤ jsRound q ∧ jsRound q ≤ 100 := by
  constructor
  · rw [jsRound]
    exact Int.le_floor.mpr (by push_cast; linarith)
  · have h2 : jsRound q < 101 := by
      rw [jsRound]
      exact Int.floor_lt.mpr (by push_cast; linarith)
    omega

/-- C9: for analyzer-derived aspect records, the composite overall score equals
the weighted sum over the eight independent 0-100 sub-scores (title 15%,
description 15%, OG 10%, Twitter 5%, technical 20%, headings 15%, schema 10%,
images 10%), rounded to the nearest integer, and therefore always lies in 0-100. -/
theorem c9_seo_overall_score :
    ∀ (tc mc : String) (ogP twP sf : Bool) (ogI twI tecI headI h1C schI imgT imgWA : Nat),
      imgWA ≤ imgT →
      calculateOverallScore (seoSummaryOf tc mc ogP twP sf ogI twI tecI headI h1C schI imgT imgWA) =
        seoCompositeSpec (seoSummaryOf tc mc ogP twP sf ogI twI tecI headI h1C schI imgT imgWA) ∧
      0 ≤ calculateOverallScore (seoSummaryOf tc mc ogP twP sf ogI twI tecI headI h1C schI imgT imgWA) ∧
      calculateOverallScore (seoSummaryOf tc mc ogP twP sf ogI twI tecI headI h1C schI imgT imgWA) ≤ 100 := by
  intro tc mc ogP twP sf ogI twI tecI headI h1C schI imgT imgWA himg
  refine ⟨calculateOverallScore_eq_spec _, ?_⟩
  rw [calculateOverallScore_eq_spec]
  set a := seoSummaryOf tc mc ogP twP sf ogI twI tecI headI h1C schI imgT imgWA with ha
  have hts : 0 ≤ (a.title.score : ℚ) ∧ (a.title.score : ℚ) ≤ 100 := by
    have := analyzeTitle_score_bounds tc
    constructor <;> [exact_mod_cast this.1; exact_mod_cast this.2]
  have hms : 0 ≤ (a.metaDescription.score : ℚ) ∧ (a.metaDescription.score : ℚ) ≤ 100 := by
    have := analyzeMetaDescription_score_bounds mc
    constructor <;> [exact_mod_cast this.1; exact_mod_cast this.2]
  have hog : 0 ≤ ogSub a ∧ ogSub a ≤ 100 := by
    rw [ogSub]; split_ifs <;> norm_num
  have htw : 0 ≤ twitterSub a ∧ twitterSub a ≤ 100 := by
    rw [twitterSub]; split_ifs <;> norm_num
  have htec : 0 ≤ technicalSub a ∧ technicalSub a ≤ 100 := by
    rw [technicalSub]
    split_ifs
    · norm_num
    · refine ⟨le_max_left _ _, max_le (by norm_num) ?_⟩
      have : (0 : ℚ) ≤ (a.technicalIssueCount : ℚ) := Nat.cast_nonneg _
      linarith
  have hhead : 0 ≤ headingSub a ∧ headingSub a ≤ 100 := by
    rw [headingSub]
    split_ifs
    · norm_num
    · refine ⟨le_max_left _ _, max_le (by norm_num) ?_⟩
      have : (0 : ℚ) ≤ (a.headingIssueCount : ℚ) := Nat.cast_nonneg _
      linarith
  have hsch : 0 ≤ schemaSub a ∧ schemaSub a ≤ 100 := by
    rw [schemaSub]; split_ifs <;> norm_num
  have himgs : 0 ≤ imagesSub a ∧ imagesSub a ≤ 100 := by
    rw [imagesSub]
    split_ifs with h
    · norm_num
    · have hT : 0 < (a.imagesTotal : ℚ) := by
        have : a.imagesTotal ≠ 0 := by simpa using h
        exact_mod_cast Nat.pos_of_ne_zero this
      have hwa : (a.imagesWithoutAlt : ℚ) ≤ (a.imagesTotal : ℚ) := by
        exact_mod_cast himg
      have hdiv0 : 0 ≤ (a.imagesWithoutAlt : ℚ) / (a.imagesTotal : ℚ) :=
        div_nonneg (Nat.cast_nonneg _) (le_of_lt hT)
      have hdiv1 : (a.imagesWithoutAlt : ℚ) / (a.imagesTotal : ℚ) ≤ 1 :=
        (div_le_one hT).mpr hwa
      constructor <;> nlinarith
  rw [seoCompositeSpec]
  apply jsRound_bounds
  · apply div_nonneg _ (by norm_num)
    nlinarith [hts.1, hms.1, hog.1, htw.1, htec.1, hhead.1, hsch.1, himgs.1]
  · rw [div_le_iff₀ (by norm_num : (0:ℚ) < 100)]
    nlinarith [hts.2, hms.2, hog.2, htw.2, htec.2, hhead.2, hsch.2, himgs.2]

/-- C9 witness: a concrete analyzer-derived summary satisfies the weighted-sum
characterization. -/
theorem c9_seo_overall_score_witness :
    calculateOverallScore (seoSummaryOf "A good page title somewhere around here ok" ""
        true false false 2 0 3 0 1 0 4 1) =
      seoCompositeSpec (seoSummaryOf "A good page title somewhere around here ok" ""
        true false false 2 0 3 0 1 0 4 1) ∧
    0 ≤ calculateOverallScore (seoSummaryOf "A good page title somewhere around here ok" ""
        true false false 2 0 3 0 1 0 4 1) ∧
    calculateOverallScore (seoSummaryOf "A good page title somewhere around here ok" ""
        true false false 2 0 3 0 1 0 4 1) ≤ 100 :=
  c9_seo_overall_score "A good page title somewhere around here ok" ""
    true false false 2 0 3 0 1 0 4 1 (by decide)

/-- A successful currency match yields a whitelisted code followed by a
non-empty digit run. -/
theorem currencyMatchAt_some {l : List Char} {code digits : String}
    (h : currencyMatchAt l = some (code, digits)) :
    code ∈ currencyCodes ∧ digits ≠ "" ∧ digits.data.all isDigitCh = true := by
  rw [currencyMatchAt] at h
  cases hf : currencyCodes.find? (fun code => needleLeads code.data l) with
  | none => rw [hf] at h; exact absurd h (by simp)
  | some c =>
    rw [hf] at h
    simp only at h
    split at h
    · exact absurd h (by simp)
    · rename_i hne
      injection h with h2
      have h3 : c = code := congrArg Prod.fst h2
      have h4 : String.mk ((l.drop c.length).takeWhile isDigitCh) = digits :=
        congrArg Prod.snd h2
      subst h4
      subst h3
      refine ⟨List.mem_of_find?_eq_some hf, ?_, ?_⟩
      · intro hemp
        apply hne
        have : ((l.drop c.length).takeWhile isDigitCh) = [] := by
          have := congrArg String.data hemp
          simpa using this
        simp [this]
      · rw [List.all_eq_true]
        intro x hx
        exact List.mem_takeWhile_imp hx

/-- Every element of the currency scan is a position with a whitelisted code and
a non-empty digit run. -/
theorem mem_scanCurrency {fuel : Nat} {l : List Char} {idx : Nat}
    {t : Nat × String × String} (h : t ∈ scanCurrency fuel l idx) :
    t.2.1 ∈ currencyCodes ∧ t.2.2 ≠ "" ∧ t.2.2.data.all isDigitCh = true := by
  induction fuel generalizing l idx with
  | zero => rw [scanCurrency] at h; exact absurd h (by simp)
  | succ n ih =>
    cases l with
    | nil => rw [scanCurrency] at h; exact absurd h (by simp)
    | cons c rest =>
      rw [scanCurrency] at h
      cases hm : currencyMatchAt (c :: rest) with
      | some p =>
        rw [hm] at h
        rcases List.mem_cons.mp h with h1 | h1
        · obtain ⟨code, digits⟩ := p
          have := currencyMatchAt_some hm
          subst h1
          simpa using this
        · exact ih h1
      | none =>
        rw [hm] at h
        exact ih h

/-- If the currency scan finds nothing (given enough fuel), no suffix of the
text matches the currency pattern. -/
theorem scanCurrency_eq_nil {fuel : Nat} {l : List Char} {idx : Nat}
    (hf : l.length ≤ fuel) (h : scanCurrency fuel l idx = []) :
    ∀ k, currencyMatchAt (l.drop k) = none := by
  induction fuel generalizing l idx with
  | zero =>
    intro k
    rw [List.length_eq_zero.mp (Nat.le_zero.mp hf)]
    rw [List.drop_nil]
    decide
  | succ n ih =>
    cases l with
    | nil =>
      intro k
      rw [List.drop_nil]
      decide
    | cons c rest =>
      rw [scanCurrency] at h
      cases hm : currencyMatchAt (c :: rest) with
      | some p => rw [hm] at h; exact absurd h (by simp)
      | none =>
        rw [hm] at h
        have hrec := @ih rest (idx + 1) (by simpa using Nat.le_of_succ_le_succ (by simpa using hf)) h
        intro k
        cases k with
        | zero => simpa using hm
        | succ k' => simpa using hrec k'

/-- `numRunOk` never fires on the empty remainder. -/
theorem numRunOk_nil (prev : Option Char) : numRunOk prev [] = none := by
  rw [numRunOk]
  split
  · rfl
  · simp

/-- A successful `\b\d{5,}\b` match is a digit run of length at least 5. -/
theorem numRunOk_some {prev : Option Char} {l run : List Char}
    (h : numRunOk prev l = some run) :
    5 ≤ run.length ∧ run.all isDigitCh = true := by
  rw [numRunOk] at h
  have hgoal : run = l.takeWhile isDigitCh ∧ 5 ≤ (l.takeWhile isDigitCh).length := by
    split at h
    · exact absurd h (by simp)
    · split at h
      · exact absurd h (by simp)
      · rename_i hb hlen
        split at h
        · exact ⟨by injection h with h1; exact h1.symm, by omega⟩
        · split at h
          · exact absurd h (by simp)
          · exact ⟨by injection h with h1; exact h1.symm, by omega⟩
  obtain ⟨hr, hlen⟩ := hgoal
  subst hr
  refine ⟨hlen, ?_⟩
  rw [List.all_eq_true]
  intro x hx
  exact List.mem_takeWhile_imp hx

/-- Every element of the large-number scan is a digit run of length at least 5. -/
theorem mem_scanLargeNumbers {fuel : Nat} {prev : Option Char} {l : List Char}
    {idx : Nat} {t : Nat × List Char} (h : t ∈ scanLargeNumbers fuel prev l idx) :
    5 ≤ t.2.length ∧ t.2.all isDigitCh = true := by
  induction fuel generalizing prev l idx with
  | zero => rw [scanLargeNumbers] at h; exact absurd h (by simp)
  | succ n ih =>
    cases l with
    | nil => rw [scanLargeNumbers] at h; exact absurd h (by simp)
    | cons c rest =>
      rw [scanLargeNumbers] at h
      cases hm : numRunOk prev (c :: rest) with
      | some run =>
        rw [hm] at h
        rcases List.mem_cons.mp h with h1 | h1
        · have := numRunOk_some hm
          subst h1
          simpa using this
        · exact ih h1
      | none =>
        rw [hm] at h
        exact ih h

/-- Stepping the boundary tracker: the character before offset `k+1` of `c :: rest`
is the character before offset `k` of `rest` started after `c`. -/
theorem prevCharAt_cons (prev : Option Char) (c : Char) (rest : List Char) (k : Nat) :
    prevCharAt prev (c :: rest) (k + 1) = prevCharAt (some c) rest k := by
  cases k <;> simp [prevCharAt]

/-- If the large-number scan finds nothing (given enough fuel), no position of
the text admits a boundary-delimited digit run of length at least 5. -/
theorem scanLargeNumbers_eq_nil {fuel : Nat} {prev : Option Char} {l : List Char}
    {idx : Nat} (hf : l.length ≤ fuel) (h : scanLargeNumbers fuel prev l idx = []) :
    ∀ k, numRunOk (prevCharAt prev l k) (l.drop k) = none := by
  induction fuel generalizing prev l idx with
  | zero =>
    intro k
    rw [List.length_eq_zero.mp (Nat.le_zero.mp hf)]
    rw [List.drop_nil]
    exact numRunOk_nil _
  | succ n ih =>
    cases l with
    | nil =>
      intro k
      rw [List.drop_nil]
      exact numRunOk_nil _
    | cons c rest =>
      rw [scanLargeNumbers] at h
      cases hm : numRunOk prev (c :: rest) with
      | some run => rw [hm] at h; exact absurd h (by simp)
      | none =>
        rw [hm] at h
        have hrec := @ih (some c) rest (idx + 1)
          (by simpa using Nat.le_of_succ_le_succ (by simpa using hf)) h
        intro k
        cases k with
        | zero => simpa [prevCharAt] using hm
        | succ k' =>
          rw [prevCharAt_cons]
          simpa using hrec k'

/-- C10: `"AED500"` yields exactly one high-severity issue with suggestion
`"AED 500"`, `"AED 500"` yields none; in general every emitted issue is either a
high-severity currency-spacing issue with a respaced suggestion (whitelisted code
followed by digits) or a medium-severity large-number issue with a
thousands-separated suggestion; and whenever the currency pattern or a
boundary-delimited 5-plus-digit run occurs in the text, an issue of the
corresponding kind is emitted. -/
theorem c10_checkNumericalFormats :
    checkNumericalFormats "AED500" =
      [{ rule_id := "currency_format_001"
         type := "formatting"
         category := "numerical_format"
         severity := "high"
         message := "Currency should have space: \"AED 500\""
         original := "AED500"
         suggestion := some "AED 500"
         position := some 0 }] ∧
    checkNumericalFormats "AED 500" = [] ∧
    (∀ (text : String) (i : Issue), i ∈ checkNumericalFormats text →
      (i.rule_id = "currency_format_001" ∧ i.severity = "high" ∧
        ∃ code digits : String, code ∈ currencyCodes ∧ digits ≠ "" ∧
          digits.data.all isDigitCh = true ∧ i.original = code ++ digits ∧
          i.suggestion = some (code ++ " " ++ digits)) ∨
      (i.rule_id = "number_format_001" ∧ i.severity = "medium" ∧
        ∃ run : List Char, 5 ≤ run.length ∧ run.all isDigitCh = true ∧
          i.original = String.mk run ∧
          i.suggestion = some (natToLocaleString (parseNatDigits run)))) ∧
    (∀ (text : String) (k : Nat), currencyMatchAt (text.data.drop k) ≠ none →
      ∃ i ∈ checkNumericalFormats text,
        i.rule_id = "currency_format_001" ∧ i.severity = "high") ∧
    (∀ (text : String) (k : Nat),
      numRunOk (prevCharAt none text.data k) (text.data.drop k) ≠ none →
      ∃ i ∈ checkNumericalFormats text,
        i.rule_id = "number_format_001" ∧ i.severity = "medium") := by
  refine ⟨by decide, by decide, ?_, ?_, ?_⟩
  · intro text i hi
    rw [checkNumericalFormats] at hi
    split at hi
    · exact absurd hi (by simp)
    · rcases List.mem_append.mp hi with hmem | hmem
      · left
        obtain ⟨t, ht, rfl⟩ := List.mem_map.mp hmem
        have hs := mem_scanCurrency ht
        exact ⟨rfl, rfl, t.2.1, t.2.2, hs.1, hs.2.1, hs.2.2, rfl, rfl⟩
      · right
        obtain ⟨t, ht, rfl⟩ := List.mem_map.mp hmem
        have hs := mem_scanLargeNumbers ht
        exact ⟨rfl, rfl, t.2, hs.1, hs.2, rfl, rfl⟩
  · intro text k hk
    rw [checkNumericalFormats]
    split
    · rename_i hempty
      exfalso
      apply hk
      have : text.data = [] := by
        have : text = "" := by simpa using hempty
        simp [this]
      rw [this, List.drop_nil]
      decide
    · cases hscan : scanCurrency text.data.length text.data 0 with
      | nil => exact absurd (scanCurrency_eq_nil (le_refl _) hscan k) hk
      | cons t ts =>
        refine ⟨currencyIssue t.1 t.2.1 t.2.2, ?_, rfl, rfl⟩
        apply List.mem_append_left
        exact List.mem_map.mpr ⟨t, List.mem_cons_self _ _, rfl⟩
  · intro text k hk
    rw [checkNumericalFormats]
    split
    · rename_i hempty
      exfalso
      apply hk
      have : text.data = [] := by
        have : text = "" := by simpa using hempty
        simp [this]
      rw [this, List.drop_nil]
      exact numRunOk_nil _
    · cases hscan : scanLargeNumbers text.data.length none text.data 0 with
      | nil => exact absurd (scanLargeNumbers_eq_nil (le_refl _) hscan k) hk
      | cons t ts =>
        refine ⟨largeNumberIssue t.1 t.2, ?_, rfl, rfl⟩
        apply List.mem_append_right
        exact List.mem_map.mpr ⟨t, List.mem_cons_self _ _, rfl⟩

/-- C10 witness: a text containing `AED99` after an offset produces a
high-severity currency issue, and a standalone six-digit run produces a
medium-severity number issue. -/
theorem c10_checkNumericalFormats_witness :
    (∃ i ∈ checkNumericalFormats "Pay AED99 now",
      i.rule_id = "currency_format_001" ∧ i.severity = "high") ∧
    (∃ i ∈ checkNumericalFormats "total 123456 units",
      i.rule_id = "number_format_001" ∧ i.severity = "medium") :=
  ⟨c10_checkNumericalFormats.2.2.2.1 "Pay AED99 now" 4 (by decide),
   c10_checkNumericalFormats.2.2.2.2 "total 123456 units" 6 (by decide)⟩

end UniversalChecker
